import Mathlib

/-!
# paperscape-backend, `nbody/Mapmysql.c`

A shallow embedding of the two functions of `Mapmysql.c`,

* `Mapmysql_env_layout_pos_load_from_db` and
* `Mapmysql_env_layout_pos_save_to_db`,

together with the part of the data model they touch (`force_params_t` from
`force.h`, and the fields of `layout_node_t`, `layout_t` and `Map_env_t`
that the two functions read or write).

Modelling conventions.

* Pointers to layouts are addresses (`Nat`) into a heap `Nat → Option layout_t`;
  the C `NULL` pointer is `Option.none`.  A heap may contain cycles of
  `child_layout` links, so the `while` loop of the save function is run with
  an explicit bound on the number of loop tests (`fuel`).
* C `double` values are modelled by exact rationals; the literal `0.1` is `1/10`.
* Dereferencing `NULL` or a dangling pointer, and indexing `nodes` outside the
  list, are reported as a `Fault`.
* Functions that live in other translation units (`layout.c`, `Mysql.c`) and
  the C library generator `random()` are parameters, collected in `Collab`.
  Every call to one of them is recorded in `World.trace`.
-/

namespace Paperscape

/-- The struct `force_params_t` of `force.h`. -/
structure force_params_t where
  do_close_repulsion : Bool
  use_ref_freq : Bool
  anti_gravity_strength : ℚ
  link_strength : ℚ
  deriving DecidableEq, Repr

/-- The fields of a layout node: the position `x`, `y` written by
`Mapmysql.c`; `ident` stands for the remaining fields, which `Mapmysql.c`
never touches. -/
structure layout_node_t where
  ident : Nat
  x : ℚ
  y : ℚ
  deriving DecidableEq, Repr

/-- The fields of `layout_t` used by `Mapmysql.c`. -/
structure layout_t where
  num_nodes : Int
  nodes : List layout_node_t
  child_layout : Option Nat
  deriving DecidableEq, Repr

/-- Layout memory: the layout stored at each address, if any. -/
abbrev Heap := Nat → Option layout_t

/-- The fields of `Map_env_t` used by `Mapmysql.c`. -/
structure Map_env_t where
  num_papers : Int
  papers : Nat
  layout : Option Nat
  force_params : force_params_t
  step_size : ℚ
  deriving DecidableEq, Repr

/-- Calls made to other translation units, in program order. -/
inductive Call where
  | layout_build_from_papers (num_papers : Int) (papers : Nat) (age_weaken : Bool)
      (factor_ref_link : Int) (factor_other_link : Int)
  | layout_print (l : Option Nat)
  | Mysql_load_paper_positions (l : Nat)
  | Mysql_save_paper_positions (l : Nat)
  deriving DecidableEq, Repr

/-- Ways in which a run can go wrong. -/
inductive Fault where
  | null_deref
  | out_of_bounds
  | out_of_fuel
  deriving DecidableEq, Repr

/-- The collaborators of `Mapmysql.c`.

* `RAND_MAX` and `random` come from the C library: `random k` is the value
  returned by the `k`-th call of `random()` (counting from `0`).
* `layout_build_from_papers` (from `layout.c`) receives its five arguments and
  the layout memory, and returns the pointer to the layout it built and the
  new layout memory.
* `Mysql_load_paper_positions` (from `Mysql.c`) receives the layout and returns
  its `bool` result together with the positions it found in the database:
  `some (x, y)` for a node index whose position it overwrites, `none` for a
  node it leaves alone.
* `Mysql_save_paper_positions` (from `Mysql.c`) receives the layout memory and
  the pointer to a layout, and returns the layout memory it leaves behind. -/
structure Collab where
  RAND_MAX : Nat
  random : Nat → Nat
  layout_build_from_papers : Int → Nat → Bool → Int → Int → Heap → Option Nat × Heap
  Mysql_load_paper_positions : layout_t → Bool × (Nat → Option (ℚ × ℚ))
  Mysql_save_paper_positions : Heap → Nat → Heap

/-- The state a run of `Mapmysql.c` acts on: the map environment, the layout
memory, the number of `random()` calls made so far, and the calls made to
other translation units. -/
structure World where
  map_env : Map_env_t
  heap : Heap
  drawn : Nat
  trace : List Call

/-- The assignment `nodes[i].x = v`. -/
def store_x (nodes : List layout_node_t) (i : Nat) (v : ℚ) :
    Except Fault (List layout_node_t) :=
  match nodes[i]? with
  | none => .error .out_of_bounds
  | some nd => .ok (nodes.set i { nd with x := v })

/-- The assignment `nodes[i].y = v`. -/
def store_y (nodes : List layout_node_t) (i : Nat) (v : ℚ) :
    Except Fault (List layout_node_t) :=
  match nodes[i]? with
  | none => .error .out_of_bounds
  | some nd => .ok (nodes.set i { nd with y := v })

/-- The expression `100.0 * random() / RAND_MAX`, for the value `r` that
`random()` returned. -/
def scaled_random (E : Collab) (r : Nat) : ℚ :=
  100 * (r : ℚ) / (E.RAND_MAX : ℚ)

/-- The loop
`for (int i = 0; i < l->num_nodes; i++) { l->nodes[i].x = ...; l->nodes[i].y = ...; }`
of `Mapmysql_env_layout_pos_load_from_db`, started at index `i` with
`n = l->num_nodes` (which the body does not write), the node array `nodes` and
`drawn` earlier calls of `random()`.  It returns the node array and the number
of `random()` calls at loop exit. -/
def init_random_positions (E : Collab) (n : Int) (i : Nat)
    (nodes : List layout_node_t) (drawn : Nat) :
    Except Fault (List layout_node_t × Nat) :=
  if (i : Int) < n then
    match store_x nodes i (scaled_random E (E.random drawn)) with
    | .error e => .error e
    | .ok nodes1 =>
      match store_y nodes1 i (scaled_random E (E.random (drawn + 1))) with
      | .error e => .error e
      | .ok nodes2 => init_random_positions E n (i + 1) nodes2 (drawn + 2)
  else
    .ok (nodes, drawn)
  termination_by (n - i).toNat
  decreasing_by omega

/-- Modelled from the spec: the effect of `Mysql_load_paper_positions` (defined
in `Mysql.c`) on the node array.  It "fills in
node positions from a backing store"; "nodes with no stored position keep"
the position they had.  `loaded k` is the stored position of node `k`, and
`apply_loaded loaded i nodes` treats `nodes` as the nodes from index `i` on. -/
def apply_loaded (loaded : Nat → Option (ℚ × ℚ)) (i : Nat) :
    List layout_node_t → List layout_node_t
  | [] => []
  | nd :: rest =>
    (match loaded i with
     | some (x, y) => { nd with x := x, y := y }
     | none => nd) :: apply_loaded loaded (i + 1) rest

/-- The function `Mapmysql_env_layout_pos_load_from_db` of `Mapmysql.c`. -/
def Mapmysql_env_layout_pos_load_from_db (E : Collab) (w : World) : Except Fault World :=
  -- layout_t *l = layout_build_from_papers(map_env->num_papers, map_env->papers, false, 1, 0);
  let built := E.layout_build_from_papers w.map_env.num_papers w.map_env.papers false 1 0 w.heap
  let l := built.1
  let w1 : World := { w with
    heap := built.2
    trace := w.trace ++
      [Call.layout_build_from_papers w.map_env.num_papers w.map_env.papers false 1 0] }
  -- map_env->layout = l;
  let w2 : World := { w1 with map_env := { w1.map_env with layout := l } }
  -- layout_print(l);
  let w3 : World := { w2 with trace := w2.trace ++ [Call.layout_print l] }
  -- for (int i = 0; i < l->num_nodes; i++) { ... }
  match l with
  | none => .error .null_deref
  | some p =>
    match w3.heap p with
    | none => .error .null_deref
    | some L =>
      match init_random_positions E L.num_nodes 0 L.nodes w3.drawn with
      | .error e => .error e
      | .ok (nodes1, drawn1) =>
        let L1 : layout_t := { L with nodes := nodes1 }
        -- Mysql_load_paper_positions(l);   (the result is discarded)
        let loaded := (E.Mysql_load_paper_positions L1).2
        let L2 : layout_t := { L1 with nodes := apply_loaded loaded 0 L1.nodes }
        let w4 : World := { w3 with
          heap := Function.update w3.heap p (some L2)
          drawn := drawn1
          trace := w3.trace ++ [Call.Mysql_load_paper_positions p] }
        -- map_env->force_params.do_close_repulsion = true;
        let w5 : World := { w4 with
          map_env := { w4.map_env with
            force_params := { w4.map_env.force_params with do_close_repulsion := true } } }
        -- map_env->step_size = 0.1;
        .ok { w5 with map_env := { w5.map_env with step_size := 1 / 10 } }

/-- The loop `while (l->child_layout != NULL) { l = l->child_layout; }` of
`Mapmysql_env_layout_pos_save_to_db`, started at `l` after `iters` executions
of its body.  `fuel` bounds the number of times the loop condition is tested.
It returns the final value of `l` and the number of executions of the body. -/
def child_layout_walk (h : Heap) : Nat → Nat → Nat → Except Fault (Nat × Nat)
  | 0, _, _ => .error .out_of_fuel
  | fuel + 1, l, iters =>
    match h l with
    | none => .error .null_deref
    | some L =>
      match L.child_layout with
      | none => .ok (l, iters)
      | some c => child_layout_walk h fuel c (iters + 1)

/-- The function `Mapmysql_env_layout_pos_save_to_db` of `Mapmysql.c`; `fuel`
bounds the number of tests of the `while` condition. -/
def Mapmysql_env_layout_pos_save_to_db (E : Collab) (fuel : Nat) (w : World) :
    Except Fault World :=
  -- layout_t *l = map_env->layout;
  match w.map_env.layout with
  | none => .error .null_deref
  | some p =>
    -- while (l->child_layout != NULL) { l = l->child_layout; }
    match child_layout_walk w.heap fuel p 0 with
    | .error e => .error e
    | .ok (l, _) =>
      -- Mysql_save_paper_positions(l);
      .ok { w with
        heap := E.Mysql_save_paper_positions w.heap l
        trace := w.trace ++ [Call.Mysql_save_paper_positions l] }

/-! ## Vocabulary of the specification -/

/-- `LinkPath h k p q`: following `k` `child_layout` links in `h` from the
layout at `p` leads to `q`. -/
inductive LinkPath (h : Heap) : Nat → Nat → Nat → Prop where
  | here (p : Nat) : LinkPath h 0 p p
  | link (k p c q : Nat) (L : layout_t) :
      h p = some L → L.child_layout = some c → LinkPath h k c q → LinkPath h (k + 1) p q

/-- The layout at `q` is a finest layout: it exists and has no child. -/
def IsFinest (h : Heap) (q : Nat) : Prop :=
  ∃ L, h q = some L ∧ L.child_layout = none


/-- The world that `Mapmysql_env_layout_pos_load_from_db` returns, written out
field by field, when `layout_build_from_papers` returned the layout `L` at
address `p` in layout memory `h1` and the initialisation loop left the node
array `nodes1` after `drawn1` calls of `random()`. -/
def load_result (E : Collab) (w : World) (p : Nat) (h1 : Heap) (L : layout_t)
    (nodes1 : List layout_node_t) (drawn1 : Nat) : World :=
  { map_env :=
      { num_papers := w.map_env.num_papers
        papers := w.map_env.papers
        layout := some p
        force_params :=
          { do_close_repulsion := true
            use_ref_freq := w.map_env.force_params.use_ref_freq
            anti_gravity_strength := w.map_env.force_params.anti_gravity_strength
            link_strength := w.map_env.force_params.link_strength }
        step_size := 1 / 10 }
    heap := Function.update h1 p (some
      { num_nodes := L.num_nodes
        nodes := apply_loaded
          (E.Mysql_load_paper_positions
            { num_nodes := L.num_nodes, nodes := nodes1, child_layout := L.child_layout }).2
          0 nodes1
        child_layout := L.child_layout })
    drawn := drawn1
    trace := w.trace ++
      [Call.layout_build_from_papers w.map_env.num_papers w.map_env.papers false 1 0,
       Call.layout_print (some p), Call.Mysql_load_paper_positions p] }

/-! ## Concrete inputs -/

/-- A hierarchy of three layouts: `10` (coarsest) links to `11`, which links to
`12` (finest, two nodes, no child). -/
def chain_heap : Heap := fun a =>
  if a = 10 then some { num_nodes := 0, nodes := [], child_layout := some 11 }
  else if a = 11 then some { num_nodes := 0, nodes := [], child_layout := some 12 }
  else if a = 12 then
    some { num_nodes := 2
           nodes := [{ ident := 7, x := 3, y := 4 }, { ident := 8, x := 5, y := 6 }]
           child_layout := none }
  else none

/-- Collaborators whose database layer only reads the layouts. -/
def chain_collab : Collab :=
  { RAND_MAX := 2147483647
    random := fun k => k
    layout_build_from_papers := fun _ _ _ _ _ h => (none, h)
    Mysql_load_paper_positions := fun _ => (false, fun _ => none)
    Mysql_save_paper_positions := fun h _ => h }

/-- A map environment whose `layout` is the coarsest layout of `chain_heap`. -/
def chain_world : World :=
  { map_env :=
      { num_papers := 2, papers := 100, layout := some 10
        force_params :=
          { do_close_repulsion := false, use_ref_freq := true
            anti_gravity_strength := 1, link_strength := 2 }
        step_size := 1 }
    heap := chain_heap
    drawn := 0
    trace := [] }

/-- Collaborators for a run of the load function: `random()` returns the
values `r 0, r 1, ...`; `layout_build_from_papers` builds, at address `1`, a
single layout with one node per paper and no child; the database load returns
`result` and the stored positions `loaded`; the database save only reads. -/
def db_collab (r : Nat → Nat) (result : Bool) (loaded : Nat → Option (ℚ × ℚ)) : Collab :=
  { RAND_MAX := 2147483647
    random := r
    layout_build_from_papers := fun n _ _ _ _ h =>
      (some 1, Function.update h 1 (some
        { num_nodes := n
          nodes := (List.range n.toNat).map (fun k => { ident := k, x := 0, y := 0 })
          child_layout := none }))
    Mysql_load_paper_positions := fun _ => (result, loaded)
    Mysql_save_paper_positions := fun h _ => h }

/-- The layout that `layout_build_from_papers` of `db_collab` builds for `n`
papers. -/
def db_layout (n : Int) : layout_t :=
  { num_nodes := n
    nodes := (List.range n.toNat).map (fun k => { ident := k, x := 0, y := 0 })
    child_layout := none }

/-- A map environment with `n` papers and no layout yet, before any call. -/
def start_world (n : Int) : World :=
  { map_env :=
      { num_papers := n, papers := 100, layout := none
        force_params :=
          { do_close_repulsion := false, use_ref_freq := true
            anti_gravity_strength := 3, link_strength := 4 }
        step_size := 1 }
    heap := fun _ => none
    drawn := 0
    trace := [] }

/-! ## The initialisation loop -/

theorem store_x_ok (nodes : List layout_node_t) (i : Nat) (v : ℚ) (nd : layout_node_t)
    (h : nodes[i]? = some nd) :
    store_x nodes i v = .ok (nodes.set i { nd with x := v }) := by
  simp [store_x, h]

theorem store_y_ok (nodes : List layout_node_t) (i : Nat) (v : ℚ) (nd : layout_node_t)
    (h : nodes[i]? = some nd) :
    store_y nodes i v = .ok (nodes.set i { nd with y := v }) := by
  simp [store_y, h]

/-- What the initialisation loop computes when the node array has room for
`n` nodes: it returns normally after `2 * (n - i)` calls of `random()`, keeps
the length of the array and every node outside `[i, n)`, and gives node `j`
in `[i, n)` the scaled draws number `2 * (j - i)` and `2 * (j - i) + 1`. -/
theorem init_random_positions_spec (E : Collab) (n : Int) :
    ∀ (m i : Nat) (nodes : List layout_node_t) (drawn : Nat),
      (n - i).toNat = m → n ≤ (nodes.length : Int) →
      ∃ nodes', init_random_positions E n i nodes drawn = .ok (nodes', drawn + 2 * m) ∧
        nodes'.length = nodes.length ∧
        (∀ j, j < i ∨ n ≤ (j : Int) → nodes'[j]? = nodes[j]?) ∧
        (∀ j, i ≤ j → (j : Int) < n → ∃ nd, nodes[j]? = some nd ∧
          nodes'[j]? = some
            { ident := nd.ident
              x := scaled_random E (E.random (drawn + 2 * (j - i)))
              y := scaled_random E (E.random (drawn + 2 * (j - i) + 1)) }) := by
  intro m
  induction m with
  | zero =>
    intro i nodes drawn hm _
    have hni : ¬ ((i : Int) < n) := by omega
    refine ⟨nodes, ?_, rfl, fun _ _ => rfl, ?_⟩
    · rw [init_random_positions]; simp [hni]
    · intro j hij hjn; omega
  | succ m ih =>
    intro i nodes drawn hm hlen
    have hin : (i : Int) < n := by omega
    have hilen : i < nodes.length := by omega
    obtain ⟨nd, hnd⟩ : ∃ nd, nodes[i]? = some nd := ⟨nodes[i], List.getElem?_eq_getElem hilen⟩
    set nodes1 := nodes.set i { nd with x := scaled_random E (E.random drawn) } with hn1
    have hnd1 : nodes1[i]? = some { nd with x := scaled_random E (E.random drawn) } := by
      simp [hn1, List.getElem?_set, hilen]
    set nodes2 := nodes1.set i
      { ident := nd.ident, x := scaled_random E (E.random drawn),
        y := scaled_random E (E.random (drawn + 1)) } with hn2
    have hlen2 : nodes2.length = nodes.length := by simp [hn2, hn1]
    obtain ⟨nodes', hrun, hlen', hout, hin'⟩ :=
      ih (i + 1) nodes2 (drawn + 2) (by push_cast; omega) (by rw [hlen2]; exact hlen)
    refine ⟨nodes', ?_, by rw [hlen', hlen2], ?_, ?_⟩
    · rw [init_random_positions]
      simp only [hin, if_true]
      rw [store_x_ok nodes i _ nd hnd]
      simp only []
      rw [store_y_ok _ i _ _ hnd1]
      simp only []
      rw [hrun]
      congr 2
      omega
    · intro j hj
      rw [hout j (by omega)]
      have hne : i ≠ j := by omega
      simp [hn2, hn1, List.getElem?_set, hne]
    · intro j hij hjn
      rcases Nat.eq_or_lt_of_le hij with heq | hlt
      · subst heq
        refine ⟨nd, hnd, ?_⟩
        rw [hout i (Or.inl (Nat.lt_succ_self i))]
        simp [hn2, hn1, List.getElem?_set, hilen]
      · obtain ⟨nd', hnd', hres⟩ := hin' j hlt hjn
        have hne : i ≠ j := by omega
        have hold : nodes[j]? = some nd' := by
          simpa [hn2, hn1, List.getElem?_set, hne] using hnd'
        refine ⟨nd', hold, ?_⟩
        rw [hres]
        have e1 : drawn + 2 + 2 * (j - (i + 1)) = drawn + 2 * (j - i) := by omega
        rw [e1]

/-! ## The writes of the loader -/

theorem apply_loaded_length (loaded : Nat → Option (ℚ × ℚ)) :
    ∀ (nodes : List layout_node_t) (i : Nat), (apply_loaded loaded i nodes).length = nodes.length := by
  intro nodes
  induction nodes with
  | nil => intro i; rfl
  | cons nd rest ih => intro i; simp [apply_loaded, ih]

/-- A node for which the loader found no stored position is left as it was. -/
theorem apply_loaded_get_none (loaded : Nat → Option (ℚ × ℚ)) :
    ∀ (nodes : List layout_node_t) (i j : Nat), loaded (i + j) = none →
      (apply_loaded loaded i nodes)[j]? = nodes[j]? := by
  intro nodes
  induction nodes with
  | nil => intro i j _; rfl
  | cons nd rest ih =>
    intro i j hj
    cases j with
    | zero =>
      have h0 : loaded i = none := by simpa using hj
      simp [apply_loaded, h0]
    | succ j =>
      have hj' : loaded (i + 1 + j) = none := by
        have e : i + 1 + j = i + (j + 1) := by omega
        rw [e]; exact hj
      simp [apply_loaded, ih (i + 1) j hj']

/-- A loader that found nothing leaves the whole node array as it was. -/
theorem apply_loaded_nothing (loaded : Nat → Option (ℚ × ℚ)) (hnone : ∀ k, loaded k = none)
    (nodes : List layout_node_t) (i : Nat) : apply_loaded loaded i nodes = nodes := by
  apply List.ext_getElem?
  intro j
  exact apply_loaded_get_none loaded nodes i j (hnone _)

/-! ## One run of the load function -/

theorem load_run (E : Collab) (w : World) (p : Nat) (h1 : Heap) (L : layout_t)
    (nodes1 : List layout_node_t) (drawn1 : Nat)
    (hb : E.layout_build_from_papers w.map_env.num_papers w.map_env.papers false 1 0 w.heap
      = (some p, h1))
    (hp : h1 p = some L)
    (hloop : init_random_positions E L.num_nodes 0 L.nodes w.drawn = .ok (nodes1, drawn1)) :
    Mapmysql_env_layout_pos_load_from_db E w = .ok (load_result E w p h1 L nodes1 drawn1) := by
  unfold Mapmysql_env_layout_pos_load_from_db
  simp only [hb, hp, hloop, load_result, List.append_assoc, List.singleton_append,
    List.cons_append, List.nil_append]

/-! ## The walk down the `child_layout` links -/

/-- Along a chain of `k` links that ends in a layout without child, the loop
leaves through its condition after `k` executions of the body, provided it is
allowed `k + 1` tests of the condition. -/
theorem child_layout_walk_of_path (h : Heap) (k p q : Nat) (hpath : LinkPath h k p q)
    (hfin : IsFinest h q) :
    ∀ fuel iters, k < fuel → child_layout_walk h fuel p iters = .ok (q, iters + k) := by
  induction hpath with
  | here p =>
    intro fuel iters hf
    obtain ⟨L, hL, hc⟩ := hfin
    obtain ⟨f, rfl⟩ : ∃ f, fuel = f + 1 := ⟨fuel - 1, by omega⟩
    simp [child_layout_walk, hL, hc]
  | link k p c q L hL hc _ ih =>
    intro fuel iters hf
    obtain ⟨f, rfl⟩ : ∃ f, fuel = f + 1 := ⟨fuel - 1, by omega⟩
    simp only [child_layout_walk, hL, hc]
    rw [ih hfin f (iters + 1) (by omega)]
    congr 2
    omega

/-- With at most `k` tests of the condition the loop is still running on a
chain of `k` links. -/
theorem child_layout_walk_short (h : Heap) (k p q : Nat) (hpath : LinkPath h k p q) :
    ∀ fuel iters, fuel ≤ k → child_layout_walk h fuel p iters = .error .out_of_fuel := by
  induction hpath with
  | here p =>
    intro fuel iters hf
    obtain rfl : fuel = 0 := by omega
    rfl
  | link k p c q L hL hc _ ih =>
    intro fuel iters hf
    cases fuel with
    | zero => rfl
    | succ f =>
      simp only [child_layout_walk, hL, hc]
      exact ih f (iters + 1) (by omega)

/-- A chain from `p` has one finest end, reached after one number of links. -/
theorem finest_unique (h : Heap) (p k q k' q' : Nat)
    (hpath : LinkPath h k p q) (hfin : IsFinest h q)
    (hpath' : LinkPath h k' p q') (hfin' : IsFinest h q') : q' = q ∧ k' = k := by
  have e1 := child_layout_walk_of_path h k p q hpath hfin (k + k' + 1) 0 (by omega)
  have e2 := child_layout_walk_of_path h k' p q' hpath' hfin' (k + k' + 1) 0 (by omega)
  rw [e1] at e2
  simp only [Except.ok.injEq, Prod.mk.injEq, Nat.zero_add] at e2
  exact ⟨e2.1.symm, e2.2.symm⟩

theorem chain_heap_path : LinkPath chain_heap 2 10 12 :=
  LinkPath.link 1 10 11 12 _ rfl rfl (LinkPath.link 0 11 12 12 _ rfl rfl (LinkPath.here 12))

theorem chain_heap_finest : IsFinest chain_heap 12 := ⟨_, rfl, rfl⟩

/-! ## The save function -/

/-- What `Mapmysql_env_layout_pos_save_to_db` returns on a chain of `k` links
from `map_env->layout` to a layout without child. -/
theorem save_run (E : Collab) (w : World) (p k q : Nat)
    (hl : w.map_env.layout = some p) (hpath : LinkPath w.heap k p q)
    (hfin : IsFinest w.heap q) (fuel : Nat) (hfuel : k < fuel) :
    Mapmysql_env_layout_pos_save_to_db E fuel w = .ok
      { w with
        heap := E.Mysql_save_paper_positions w.heap q
        trace := w.trace ++ [Call.Mysql_save_paper_positions q] } := by
  unfold Mapmysql_env_layout_pos_save_to_db
  have hw := child_layout_walk_of_path w.heap k p q hpath hfin fuel 0 hfuel
  simp only [hl, hw]

/-- C1: when `map_env->layout` is the head of a chain of `child_layout` links
that ends, after `k` links, in a layout `q` whose `child_layout` is `NULL`
(a non-empty acyclic chain), `Mapmysql_env_layout_pos_save_to_db` returns
normally and its one call to another unit is `Mysql_save_paper_positions(q)`.
That `q` is the only layout without child reachable from `map_env->layout`,
and it is `map_env->layout` itself when that layout has no child. -/
theorem save_passes_finest_layout (E : Collab) (w : World) (p k q : Nat)
    (hl : w.map_env.layout = some p) (hpath : LinkPath w.heap k p q)
    (hfin : IsFinest w.heap q) (fuel : Nat) (hfuel : k < fuel) :
    (∃ w', Mapmysql_env_layout_pos_save_to_db E fuel w = .ok w' ∧
      w'.trace = w.trace ++ [Call.Mysql_save_paper_positions q]) ∧
    (∀ k' q', LinkPath w.heap k' p q' → IsFinest w.heap q' → q' = q) ∧
    (IsFinest w.heap p → q = p) := by
  refine ⟨⟨_, save_run E w p k q hl hpath hfin fuel hfuel, rfl⟩, ?_, ?_⟩
  · intro k' q' hpath' hfin'
    exact (finest_unique w.heap p k q k' q' hpath hfin hpath' hfin').1
  · intro hp
    exact ((finest_unique w.heap p 0 p k q (LinkPath.here p) hp hpath hfin).1)

theorem save_passes_finest_layout_witness :
    chain_world.map_env.layout = some 10 ∧ LinkPath chain_world.heap 2 10 12 ∧
    IsFinest chain_world.heap 12 ∧ 2 < 3 ∧
    ((∃ w', Mapmysql_env_layout_pos_save_to_db chain_collab 3 chain_world = .ok w' ∧
      w'.trace = chain_world.trace ++ [Call.Mysql_save_paper_positions 12]) ∧
    (∀ k' q', LinkPath chain_world.heap k' 10 q' → IsFinest chain_world.heap q' → q' = 12) ∧
    (IsFinest chain_world.heap 10 → 12 = 10)) :=
  ⟨rfl, chain_heap_path, chain_heap_finest, by decide,
    save_passes_finest_layout chain_collab chain_world 10 2 12 rfl chain_heap_path
      chain_heap_finest 3 (by decide)⟩

/-- With at most `k` tests of the loop condition,
`Mapmysql_env_layout_pos_save_to_db` is still inside its loop on a chain of
`k` links from `map_env->layout`. -/
theorem save_short (E : Collab) (w : World) (p k q : Nat)
    (hl : w.map_env.layout = some p) (hpath : LinkPath w.heap k p q)
    (fuel : Nat) (hfuel : fuel ≤ k) :
    Mapmysql_env_layout_pos_save_to_db E fuel w = .error .out_of_fuel := by
  unfold Mapmysql_env_layout_pos_save_to_db
  have hw := child_layout_walk_short w.heap k p q hpath fuel 0 hfuel
  simp only [hl, hw]

/-- C5: when `map_env->layout` is the coarsest layout `p` of a chain of `k`
`child_layout` links that ends in a layout `q` without child, the loop of
`Mapmysql_env_layout_pos_save_to_db`, started at `map_env->layout`, ends on
`q` after exactly `k` executions of its body.  With `k + 1` tests of the loop
condition the function returns, having called `Mysql_save_paper_positions(q)`;
with `k` tests or fewer it is still inside the loop. -/
theorem save_walk_terminates_after_k_iterations (E : Collab) (w : World) (p k q : Nat)
    (hl : w.map_env.layout = some p) (hpath : LinkPath w.heap k p q)
    (hfin : IsFinest w.heap q) :
    (∀ fuel, k < fuel →
      child_layout_walk w.heap fuel p 0 = .ok (q, k) ∧
      ∃ w', Mapmysql_env_layout_pos_save_to_db E fuel w = .ok w' ∧
        w'.trace = w.trace ++ [Call.Mysql_save_paper_positions q] ∧
        w'.heap = E.Mysql_save_paper_positions w.heap q) ∧
    (∀ fuel, fuel ≤ k →
      child_layout_walk w.heap fuel p 0 = .error .out_of_fuel ∧
      Mapmysql_env_layout_pos_save_to_db E fuel w = .error .out_of_fuel) := by
  constructor
  · intro fuel hf
    refine ⟨?_, _, save_run E w p k q hl hpath hfin fuel hf, rfl, rfl⟩
    have := child_layout_walk_of_path w.heap k p q hpath hfin fuel 0 hf
    simpa using this
  · intro fuel hf
    exact ⟨child_layout_walk_short w.heap k p q hpath fuel 0 hf,
      save_short E w p k q hl hpath fuel hf⟩

theorem save_walk_terminates_after_k_iterations_witness :
    chain_world.map_env.layout = some 10 ∧ LinkPath chain_world.heap 2 10 12 ∧
    IsFinest chain_world.heap 12 ∧
    ((∀ fuel, 2 < fuel →
      child_layout_walk chain_world.heap fuel 10 0 = .ok (12, 2) ∧
      ∃ w', Mapmysql_env_layout_pos_save_to_db chain_collab fuel chain_world = .ok w' ∧
        w'.trace = chain_world.trace ++ [Call.Mysql_save_paper_positions 12] ∧
        w'.heap = chain_collab.Mysql_save_paper_positions chain_world.heap 12) ∧
     (∀ fuel, fuel ≤ 2 →
      child_layout_walk chain_world.heap fuel 10 0 = .error .out_of_fuel ∧
      Mapmysql_env_layout_pos_save_to_db chain_collab fuel chain_world
        = .error .out_of_fuel)) :=
  ⟨rfl, chain_heap_path, chain_heap_finest,
    save_walk_terminates_after_k_iterations chain_collab chain_world 10 2 12 rfl
      chain_heap_path chain_heap_finest⟩

/-- C9: `Mapmysql_env_layout_pos_save_to_db` does not write to the map
environment or to any layout: the walk advances the local `l` only.  A call on
a chain that ends in a layout `q` without child returns a world whose
`map_env` (in particular `map_env->layout`) is the one from before the call,
and whose layout memory is what `Mysql_save_paper_positions(q)` left of the
layout memory from before the call.  With a database layer that only reads the
layouts, every layout (child link, node count, node positions) is as before. -/
theorem save_leaves_env_and_layouts (E : Collab) (w : World) (p k q : Nat)
    (hl : w.map_env.layout = some p) (hpath : LinkPath w.heap k p q)
    (hfin : IsFinest w.heap q) (fuel : Nat) (hfuel : k < fuel) :
    ∃ w', Mapmysql_env_layout_pos_save_to_db E fuel w = .ok w' ∧
      w'.map_env.layout = some p ∧ w'.map_env = w.map_env ∧ w'.drawn = w.drawn ∧
      w'.heap = E.Mysql_save_paper_positions w.heap q ∧
      ((∀ h l, E.Mysql_save_paper_positions h l = h) → w'.heap = w.heap) := by
  refine ⟨_, save_run E w p k q hl hpath hfin fuel hfuel, hl, rfl, rfl, rfl, ?_⟩
  intro hsave
  exact hsave _ _

theorem save_leaves_env_and_layouts_witness :
    chain_world.map_env.layout = some 10 ∧ LinkPath chain_world.heap 2 10 12 ∧
    IsFinest chain_world.heap 12 ∧ 2 < 5 ∧
    (∃ w', Mapmysql_env_layout_pos_save_to_db chain_collab 5 chain_world = .ok w' ∧
      w'.map_env.layout = some 10 ∧ w'.map_env = chain_world.map_env ∧
      w'.drawn = chain_world.drawn ∧
      w'.heap = chain_collab.Mysql_save_paper_positions chain_world.heap 12 ∧
      ((∀ h l, chain_collab.Mysql_save_paper_positions h l = h) →
        w'.heap = chain_world.heap)) :=
  ⟨rfl, chain_heap_path, chain_heap_finest, by decide,
    save_leaves_env_and_layouts chain_collab chain_world 10 2 12 rfl
      chain_heap_path chain_heap_finest 5 (by decide)⟩

/-! ## The load function -/

/-- The initialisation loop as `Mapmysql_env_layout_pos_load_from_db` starts
it (at index `0`), on a node array with room for `n` nodes. -/
theorem init_random_positions_from_zero (E : Collab) (n : Int) (nodes : List layout_node_t)
    (drawn : Nat) (hwf : n ≤ (nodes.length : Int)) :
    ∃ nodes', init_random_positions E n 0 nodes drawn = .ok (nodes', drawn + 2 * n.toNat) ∧
      nodes'.length = nodes.length ∧
      (∀ j : Nat, n ≤ (j : Int) → nodes'[j]? = nodes[j]?) ∧
      (∀ j : Nat, (j : Int) < n → ∃ nd, nodes[j]? = some nd ∧
        nodes'[j]? = some
          { ident := nd.ident
            x := scaled_random E (E.random (drawn + 2 * j))
            y := scaled_random E (E.random (drawn + 2 * j + 1)) }) := by
  obtain ⟨nodes', hrun, hlen, hout, hin⟩ :=
    init_random_positions_spec E n n.toNat 0 nodes drawn (by simp) hwf
  refine ⟨nodes', hrun, hlen, fun j hj => hout j (Or.inr hj), ?_⟩
  intro j hj
  simpa using hin j (Nat.zero_le j) hj

/-- The load function returns normally whenever `layout_build_from_papers`
returned a layout whose node array has room for `num_nodes` nodes. -/
theorem load_total (E : Collab) (w : World) (p : Nat) (h1 : Heap) (L : layout_t)
    (hb : E.layout_build_from_papers w.map_env.num_papers w.map_env.papers false 1 0 w.heap
      = (some p, h1))
    (hp : h1 p = some L) (hwf : L.num_nodes ≤ (L.nodes.length : Int)) :
    ∃ nodes1,
      init_random_positions E L.num_nodes 0 L.nodes w.drawn
        = .ok (nodes1, w.drawn + 2 * L.num_nodes.toNat) ∧
      Mapmysql_env_layout_pos_load_from_db E w
        = .ok (load_result E w p h1 L nodes1 (w.drawn + 2 * L.num_nodes.toNat)) ∧
      nodes1.length = L.nodes.length ∧
      (∀ j : Nat, L.num_nodes ≤ (j : Int) → nodes1[j]? = L.nodes[j]?) ∧
      (∀ j : Nat, (j : Int) < L.num_nodes → ∃ nd, L.nodes[j]? = some nd ∧
        nodes1[j]? = some
          { ident := nd.ident
            x := scaled_random E (E.random (w.drawn + 2 * j))
            y := scaled_random E (E.random (w.drawn + 2 * j + 1)) }) := by
  obtain ⟨nodes1, hrun, hlen, hout, hin⟩ :=
    init_random_positions_from_zero E L.num_nodes L.nodes w.drawn hwf
  exact ⟨nodes1, hrun, load_run E w p h1 L nodes1 _ hb hp hrun, hlen, hout, hin⟩

/-- The layout stored at `p` by a run of the load function. -/
theorem load_result_heap (E : Collab) (w : World) (p : Nat) (h1 : Heap) (L : layout_t)
    (nodes1 : List layout_node_t) (drawn1 : Nat) :
    (load_result E w p h1 L nodes1 drawn1).heap p = some
      { num_nodes := L.num_nodes
        nodes := apply_loaded
          (E.Mysql_load_paper_positions
            { num_nodes := L.num_nodes, nodes := nodes1, child_layout := L.child_layout }).2
          0 nodes1
        child_layout := L.child_layout } := by
  simp [load_result]

theorem db_collab_builds (r : Nat → Nat) (result : Bool) (loaded : Nat → Option (ℚ × ℚ))
    (n : Int) :
    (db_collab r result loaded).layout_build_from_papers (start_world n).map_env.num_papers
        (start_world n).map_env.papers false 1 0 (start_world n).heap
      = (some 1, Function.update (fun _ => none) 1 (some (db_layout n))) := rfl

theorem db_layout_at (n : Int) :
    Function.update (fun _ => none : Heap) 1 (some (db_layout n)) 1 = some (db_layout n) := by
  simp

theorem db_layout_wf (n : Int) : (db_layout n).num_nodes ≤ ((db_layout n).nodes.length : Int) := by
  simp [db_layout]

/-- C2: whatever `Mysql_load_paper_positions` returns, a call of
`Mapmysql_env_layout_pos_load_from_db` for which `layout_build_from_papers`
returned a layout returns normally, with `map_env->layout` set to that layout;
and when the loader wrote no position (whatever its boolean result), the
layout's nodes are exactly the nodes the initialisation loop left. -/
theorem load_completes_for_every_loader_outcome (E : Collab) (w : World) (p : Nat)
    (h1 : Heap) (L : layout_t)
    (hb : E.layout_build_from_papers w.map_env.num_papers w.map_env.papers false 1 0 w.heap
      = (some p, h1))
    (hp : h1 p = some L) (hwf : L.num_nodes ≤ (L.nodes.length : Int)) :
    ∃ w' nodes1 drawn1,
      Mapmysql_env_layout_pos_load_from_db E w = .ok w' ∧
      w'.map_env.layout = some p ∧
      init_random_positions E L.num_nodes 0 L.nodes w.drawn = .ok (nodes1, drawn1) ∧
      (∃ L', w'.heap p = some L' ∧ L'.num_nodes = L.num_nodes ∧
        L'.child_layout = L.child_layout ∧ L'.nodes.length = L.nodes.length) ∧
      ((∀ k, (E.Mysql_load_paper_positions
          { num_nodes := L.num_nodes, nodes := nodes1, child_layout := L.child_layout }).2 k
          = none) →
        w'.heap p = some
          { num_nodes := L.num_nodes, nodes := nodes1, child_layout := L.child_layout }) := by
  obtain ⟨nodes1, hloop, hrun, hlen, -, -⟩ := load_total E w p h1 L hb hp hwf
  refine ⟨_, nodes1, _, hrun, rfl, hloop, ⟨_, load_result_heap E w p h1 L nodes1 _, rfl, rfl, ?_⟩, ?_⟩
  · simp [apply_loaded_length, hlen]
  · intro hnone
    rw [load_result_heap, apply_loaded_nothing _ hnone]

theorem load_completes_for_every_loader_outcome_witness :
    (db_collab (fun k => k) false (fun _ => none)).layout_build_from_papers
        (start_world 2).map_env.num_papers (start_world 2).map_env.papers false 1 0
        (start_world 2).heap
      = (some 1, Function.update (fun _ => none) 1 (some (db_layout 2))) ∧
    Function.update (fun _ => none : Heap) 1 (some (db_layout 2)) 1 = some (db_layout 2) ∧
    (db_layout 2).num_nodes ≤ ((db_layout 2).nodes.length : Int) ∧
    ∃ w' nodes1 drawn1,
      Mapmysql_env_layout_pos_load_from_db (db_collab (fun k => k) false (fun _ => none))
        (start_world 2) = .ok w' ∧
      w'.map_env.layout = some 1 ∧
      init_random_positions (db_collab (fun k => k) false (fun _ => none))
        (db_layout 2).num_nodes 0 (db_layout 2).nodes (start_world 2).drawn
        = .ok (nodes1, drawn1) ∧
      (∃ L', w'.heap 1 = some L' ∧ L'.num_nodes = (db_layout 2).num_nodes ∧
        L'.child_layout = (db_layout 2).child_layout ∧
        L'.nodes.length = (db_layout 2).nodes.length) ∧
      ((∀ k, ((db_collab (fun k => k) false (fun _ => none)).Mysql_load_paper_positions
          { num_nodes := (db_layout 2).num_nodes, nodes := nodes1,
            child_layout := (db_layout 2).child_layout }).2 k = none) →
        w'.heap 1 = some
          { num_nodes := (db_layout 2).num_nodes, nodes := nodes1,
            child_layout := (db_layout 2).child_layout }) :=
  ⟨db_collab_builds _ _ _ 2, db_layout_at 2, db_layout_wf 2,
    load_completes_for_every_loader_outcome (db_collab (fun k => k) false (fun _ => none))
      (start_world 2) 1 _ (db_layout 2) (db_collab_builds _ _ _ 2) (db_layout_at 2)
      (db_layout_wf 2)⟩

/-- C3: let the loader overwrite positions only of nodes in a set `S`.  After
`Mapmysql_env_layout_pos_load_from_db`, every node `i < num_nodes` outside `S`
has exactly the position the initialisation loop gave it, made of the draws
number `2 * i` (for `x`) and `2 * i + 1` (for `y`) of this call. -/
theorem load_keeps_placeholder_outside_loaded (E : Collab) (w : World) (p : Nat)
    (h1 : Heap) (L : layout_t) (S : Set Nat)
    (hb : E.layout_build_from_papers w.map_env.num_papers w.map_env.papers false 1 0 w.heap
      = (some p, h1))
    (hp : h1 p = some L) (hwf : L.num_nodes ≤ (L.nodes.length : Int))
    (hS : ∀ L' i, i ∉ S → (E.Mysql_load_paper_positions L').2 i = none) :
    ∃ w' L', Mapmysql_env_layout_pos_load_from_db E w = .ok w' ∧ w'.heap p = some L' ∧
      ∀ i : Nat, (i : Int) < L.num_nodes → i ∉ S →
        ∃ nd, L.nodes[i]? = some nd ∧
          L'.nodes[i]? = some
            { ident := nd.ident
              x := scaled_random E (E.random (w.drawn + 2 * i))
              y := scaled_random E (E.random (w.drawn + 2 * i + 1)) } := by
  obtain ⟨nodes1, -, hrun, -, -, hin⟩ := load_total E w p h1 L hb hp hwf
  refine ⟨_, _, hrun, load_result_heap E w p h1 L nodes1 _, ?_⟩
  intro i hi hiS
  obtain ⟨nd, hnd, hnew⟩ := hin i hi
  refine ⟨nd, hnd, ?_⟩
  show (apply_loaded _ 0 nodes1)[i]? = _
  rw [apply_loaded_get_none _ nodes1 0 i (by rw [Nat.zero_add]; exact hS _ i hiS)]
  exact hnew

theorem load_keeps_placeholder_outside_loaded_witness :
    (db_collab (fun k => k + 5) true (fun i => if i = 0 then some (11, 12) else none)).layout_build_from_papers
        (start_world 2).map_env.num_papers (start_world 2).map_env.papers false 1 0
        (start_world 2).heap
      = (some 1, Function.update (fun _ => none) 1 (some (db_layout 2))) ∧
    Function.update (fun _ => none : Heap) 1 (some (db_layout 2)) 1 = some (db_layout 2) ∧
    (db_layout 2).num_nodes ≤ ((db_layout 2).nodes.length : Int) ∧
    (∀ (L' : layout_t) (i : Nat), i ∉ ({0} : Set Nat) →
      ((db_collab (fun k => k + 5) true
        (fun i => if i = 0 then some (11, 12) else none)).Mysql_load_paper_positions L').2 i
        = none) ∧
    ∃ w' L',
      Mapmysql_env_layout_pos_load_from_db
        (db_collab (fun k => k + 5) true (fun i => if i = 0 then some (11, 12) else none))
        (start_world 2) = .ok w' ∧ w'.heap 1 = some L' ∧
      ∀ i : Nat, (i : Int) < (db_layout 2).num_nodes → i ∉ ({0} : Set Nat) →
        ∃ nd, (db_layout 2).nodes[i]? = some nd ∧
          L'.nodes[i]? = some
            { ident := nd.ident
              x := scaled_random
                (db_collab (fun k => k + 5) true (fun i => if i = 0 then some (11, 12) else none))
                ((db_collab (fun k => k + 5) true
                  (fun i => if i = 0 then some (11, 12) else none)).random
                  ((start_world 2).drawn + 2 * i))
              y := scaled_random
                (db_collab (fun k => k + 5) true (fun i => if i = 0 then some (11, 12) else none))
                ((db_collab (fun k => k + 5) true
                  (fun i => if i = 0 then some (11, 12) else none)).random
                  ((start_world 2).drawn + 2 * i + 1)) } :=
  ⟨db_collab_builds _ _ _ 2, db_layout_at 2, db_layout_wf 2,
    fun _ i hi => by simpa [db_collab] using hi,
    load_keeps_placeholder_outside_loaded
      (db_collab (fun k => k + 5) true (fun i => if i = 0 then some (11, 12) else none))
      (start_world 2) 1 _ (db_layout 2) {0}
      (db_collab_builds _ _ _ 2) (db_layout_at 2) (db_layout_wf 2)
      (fun _ i hi => by simpa [db_collab] using hi)⟩

/-- C8: for every prior state of `map_env` and every loader outcome, after
`Mapmysql_env_layout_pos_load_from_db` the field `do_close_repulsion` is true
and `step_size` is `0.1`, while `use_ref_freq`, `anti_gravity_strength`,
`link_strength`, `num_papers` and `papers` have the values from before. -/
theorem load_sets_close_repulsion_and_step_size (E : Collab) (w : World) (p : Nat)
    (h1 : Heap) (L : layout_t)
    (hb : E.layout_build_from_papers w.map_env.num_papers w.map_env.papers false 1 0 w.heap
      = (some p, h1))
    (hp : h1 p = some L) (hwf : L.num_nodes ≤ (L.nodes.length : Int)) :
    ∃ w', Mapmysql_env_layout_pos_load_from_db E w = .ok w' ∧
      w'.map_env.force_params.do_close_repulsion = true ∧
      w'.map_env.step_size = 1 / 10 ∧
      w'.map_env.force_params.use_ref_freq = w.map_env.force_params.use_ref_freq ∧
      w'.map_env.force_params.anti_gravity_strength
        = w.map_env.force_params.anti_gravity_strength ∧
      w'.map_env.force_params.link_strength = w.map_env.force_params.link_strength ∧
      w'.map_env.num_papers = w.map_env.num_papers ∧
      w'.map_env.papers = w.map_env.papers := by
  obtain ⟨nodes1, -, hrun, -⟩ := load_total E w p h1 L hb hp hwf
  exact ⟨_, hrun, rfl, rfl, rfl, rfl, rfl, rfl, rfl⟩

theorem load_sets_close_repulsion_and_step_size_witness :
    (db_collab (fun k => 3 * k) true (fun _ => some (1, 2))).layout_build_from_papers
        (start_world 3).map_env.num_papers (start_world 3).map_env.papers false 1 0
        (start_world 3).heap
      = (some 1, Function.update (fun _ => none) 1 (some (db_layout 3))) ∧
    Function.update (fun _ => none : Heap) 1 (some (db_layout 3)) 1 = some (db_layout 3) ∧
    (db_layout 3).num_nodes ≤ ((db_layout 3).nodes.length : Int) ∧
    ∃ w', Mapmysql_env_layout_pos_load_from_db
        (db_collab (fun k => 3 * k) true (fun _ => some (1, 2))) (start_world 3) = .ok w' ∧
      w'.map_env.force_params.do_close_repulsion = true ∧
      w'.map_env.step_size = 1 / 10 ∧
      w'.map_env.force_params.use_ref_freq = (start_world 3).map_env.force_params.use_ref_freq ∧
      w'.map_env.force_params.anti_gravity_strength
        = (start_world 3).map_env.force_params.anti_gravity_strength ∧
      w'.map_env.force_params.link_strength
        = (start_world 3).map_env.force_params.link_strength ∧
      w'.map_env.num_papers = (start_world 3).map_env.num_papers ∧
      w'.map_env.papers = (start_world 3).map_env.papers :=
  ⟨db_collab_builds _ _ _ 3, db_layout_at 3, db_layout_wf 3,
    load_sets_close_repulsion_and_step_size
      (db_collab (fun k => 3 * k) true (fun _ => some (1, 2))) (start_world 3) 1 _ (db_layout 3)
      (db_collab_builds _ _ _ 3) (db_layout_at 3) (db_layout_wf 3)⟩

/-- C10: the initialisation loop of `Mapmysql_env_layout_pos_load_from_db`
makes exactly `2 * num_nodes` calls of `random()`; with `r_0, r_1, ...` the
values returned by these calls in order, node `i` gets
`x = 100 * r_(2i) / RAND_MAX` and `y = 100 * r_(2i+1) / RAND_MAX`; and a second
run whose `random()` returns the same values leaves the same node array. -/
theorem placeholder_positions_follow_draw_order (E : Collab) (w : World) (p : Nat)
    (h1 : Heap) (L : layout_t)
    (hb : E.layout_build_from_papers w.map_env.num_papers w.map_env.papers false 1 0 w.heap
      = (some p, h1))
    (hp : h1 p = some L) (hwf : L.num_nodes ≤ (L.nodes.length : Int)) :
    ∃ w' nodes1,
      Mapmysql_env_layout_pos_load_from_db E w = .ok w' ∧
      w'.drawn = w.drawn + 2 * L.num_nodes.toNat ∧
      init_random_positions E L.num_nodes 0 L.nodes w.drawn
        = .ok (nodes1, w.drawn + 2 * L.num_nodes.toNat) ∧
      (∀ i : Nat, (i : Int) < L.num_nodes → ∃ nd, L.nodes[i]? = some nd ∧
        nodes1[i]? = some
          { ident := nd.ident
            x := 100 * (E.random (w.drawn + 2 * i) : ℚ) / (E.RAND_MAX : ℚ)
            y := 100 * (E.random (w.drawn + 2 * i + 1) : ℚ) / (E.RAND_MAX : ℚ) }) ∧
      (∀ (E2 : Collab) (d2 : Nat), E2.RAND_MAX = E.RAND_MAX →
        (∀ k, k < 2 * L.num_nodes.toNat → E2.random (d2 + k) = E.random (w.drawn + k)) →
        init_random_positions E2 L.num_nodes 0 L.nodes d2
          = .ok (nodes1, d2 + 2 * L.num_nodes.toNat)) := by
  obtain ⟨nodes1, hloop, hrun, hlen, hout, hin⟩ := load_total E w p h1 L hb hp hwf
  refine ⟨_, nodes1, hrun, rfl, hloop, hin, ?_⟩
  intro E2 d2 hmax hdraws
  obtain ⟨nodes2, hloop2, hlen2, hout2, hin2⟩ :=
    init_random_positions_from_zero E2 L.num_nodes L.nodes d2 hwf
  have heq : nodes2 = nodes1 := by
    apply List.ext_getElem?
    intro j
    by_cases hj : (j : Int) < L.num_nodes
    · obtain ⟨nd, hnd, h1j⟩ := hin j hj
      obtain ⟨nd2, hnd2, h2j⟩ := hin2 j hj
      have hsame : nd2 = nd := by
        rw [hnd] at hnd2
        exact (Option.some.inj hnd2).symm
      subst hsame
      rw [h1j, h2j]
      have e1 : E2.random (d2 + 2 * j) = E.random (w.drawn + 2 * j) :=
        hdraws (2 * j) (by omega)
      have e2 : E2.random (d2 + 2 * j + 1) = E.random (w.drawn + 2 * j + 1) :=
        hdraws (2 * j + 1) (by omega)
      simp only [scaled_random, hmax, e1, e2]
    · rw [hout j (by omega), hout2 j (by omega)]
  rw [hloop2, heq]

theorem placeholder_positions_follow_draw_order_witness :
    (db_collab (fun k => 7 * k + 1) false (fun _ => none)).layout_build_from_papers
        (start_world 2).map_env.num_papers (start_world 2).map_env.papers false 1 0
        (start_world 2).heap
      = (some 1, Function.update (fun _ => none) 1 (some (db_layout 2))) ∧
    Function.update (fun _ => none : Heap) 1 (some (db_layout 2)) 1 = some (db_layout 2) ∧
    (db_layout 2).num_nodes ≤ ((db_layout 2).nodes.length : Int) ∧
    ∃ w' nodes1,
      Mapmysql_env_layout_pos_load_from_db (db_collab (fun k => 7 * k + 1) false (fun _ => none))
        (start_world 2) = .ok w' ∧
      w'.drawn = (start_world 2).drawn + 2 * (db_layout 2).num_nodes.toNat ∧
      init_random_positions (db_collab (fun k => 7 * k + 1) false (fun _ => none))
        (db_layout 2).num_nodes 0 (db_layout 2).nodes (start_world 2).drawn
        = .ok (nodes1, (start_world 2).drawn + 2 * (db_layout 2).num_nodes.toNat) ∧
      (∀ i : Nat, (i : Int) < (db_layout 2).num_nodes → ∃ nd, (db_layout 2).nodes[i]? = some nd ∧
        nodes1[i]? = some
          { ident := nd.ident
            x := 100 * ((db_collab (fun k => 7 * k + 1) false (fun _ => none)).random
                  ((start_world 2).drawn + 2 * i) : ℚ)
                / ((db_collab (fun k => 7 * k + 1) false (fun _ => none)).RAND_MAX : ℚ)
            y := 100 * ((db_collab (fun k => 7 * k + 1) false (fun _ => none)).random
                  ((start_world 2).drawn + 2 * i + 1) : ℚ)
                / ((db_collab (fun k => 7 * k + 1) false (fun _ => none)).RAND_MAX : ℚ) }) ∧
      (∀ (E2 : Collab) (d2 : Nat),
        E2.RAND_MAX = (db_collab (fun k => 7 * k + 1) false (fun _ => none)).RAND_MAX →
        (∀ k, k < 2 * (db_layout 2).num_nodes.toNat →
          E2.random (d2 + k)
            = (db_collab (fun k => 7 * k + 1) false (fun _ => none)).random
                ((start_world 2).drawn + k)) →
        init_random_positions E2 (db_layout 2).num_nodes 0 (db_layout 2).nodes d2
          = .ok (nodes1, d2 + 2 * (db_layout 2).num_nodes.toNat)) :=
  ⟨db_collab_builds _ _ _ 2, db_layout_at 2, db_layout_wf 2,
    placeholder_positions_follow_draw_order
      (db_collab (fun k => 7 * k + 1) false (fun _ => none)) (start_world 2) 1 _ (db_layout 2)
      (db_collab_builds _ _ _ 2) (db_layout_at 2) (db_layout_wf 2)⟩

/-! ## The range of the placeholder positions -/

theorem scaled_random_nonneg (E : Collab) (r : Nat) : 0 ≤ scaled_random E r := by
  unfold scaled_random
  positivity

theorem scaled_random_le (E : Collab) (r : Nat) (hmax : 0 < E.RAND_MAX) (hr : r ≤ E.RAND_MAX) :
    scaled_random E r ≤ 100 := by
  unfold scaled_random
  have hpos : (0 : ℚ) < (E.RAND_MAX : ℚ) := by exact_mod_cast hmax
  have hle : (r : ℚ) ≤ (E.RAND_MAX : ℚ) := by exact_mod_cast hr
  rw [div_le_iff₀ hpos]
  linarith

theorem scaled_random_max (E : Collab) (r : Nat) (hmax : 0 < E.RAND_MAX)
    (hr : r = E.RAND_MAX) : scaled_random E r = 100 := by
  unfold scaled_random
  have hpos : (0 : ℚ) < (E.RAND_MAX : ℚ) := by exact_mod_cast hmax
  rw [hr, mul_div_assoc, div_self (ne_of_gt hpos), mul_one]

/-- C4, as stated, fails: with one paper, a loader that returns no data and a
`random()` that returns `RAND_MAX = 2147483647` (a value in `0..RAND_MAX`),
the node ends at `x = 100` and `y = 100`, which is not below `100`. -/
theorem load_position_reaches_100 :
    (∀ k, (db_collab (fun _ => 2147483647) false (fun _ => none)).random k
      ≤ (db_collab (fun _ => 2147483647) false (fun _ => none)).RAND_MAX) ∧
    (∀ L' k, ((db_collab (fun _ => 2147483647) false
      (fun _ => none)).Mysql_load_paper_positions L').2 k = none) ∧
    ∃ w' nd, Mapmysql_env_layout_pos_load_from_db
        (db_collab (fun _ => 2147483647) false (fun _ => none)) (start_world 1) = .ok w' ∧
      w'.heap 1 = some { num_nodes := 1, nodes := [nd], child_layout := none } ∧
      nd = { ident := 0, x := 100, y := 100 } ∧
      ¬ (0 ≤ nd.x ∧ nd.x < 100 ∧ 0 ≤ nd.y ∧ nd.y < 100) := by
  refine ⟨fun _ => le_refl _, fun _ _ => rfl, ?_⟩
  obtain ⟨nodes1, -, hrun, hlen, -, hin⟩ :=
    load_total (db_collab (fun _ => 2147483647) false (fun _ => none)) (start_world 1) 1 _
      (db_layout 1) (db_collab_builds _ _ _ 1) (db_layout_at 1) (db_layout_wf 1)
  refine ⟨_, { ident := 0, x := 100, y := 100 }, hrun, ?_, rfl, by norm_num⟩
  have hap : ∀ L', apply_loaded ((db_collab (fun _ => 2147483647) false
      (fun _ => none)).Mysql_load_paper_positions L').2 0 nodes1 = nodes1 :=
    fun L' => apply_loaded_nothing _ (fun _ => rfl) nodes1 0
  rw [load_result_heap, hap]
  obtain ⟨nd, hnd, h0⟩ := hin 0 (by decide)
  have hnd0 : nd = { ident := 0, x := 0, y := 0 } := by
    have : (db_layout 1).nodes[0]? = some { ident := 0, x := 0, y := 0 } := by decide
    rw [this] at hnd
    exact (Option.some.inj hnd).symm
  have hs : scaled_random (db_collab (fun _ => 2147483647) false (fun _ => none)) 2147483647
      = 100 := by
    norm_num [scaled_random, db_collab]
  have hnodes : nodes1 = [{ ident := 0, x := 100, y := 100 }] := by
    apply List.ext_getElem?
    intro j
    cases j with
    | zero =>
      rw [h0, hnd0]
      simp only [db_collab] at hs ⊢
      simp [hs]
    | succ j =>
      have hl : nodes1.length = 1 := by rw [hlen]; decide
      rw [List.getElem?_eq_none (by omega)]
      simp
  rw [hnodes]
  rfl

/-- C4, amended: when the loader returns no data, `RAND_MAX` is positive and
`random()` returns values in `0..RAND_MAX`, every node `i < num_nodes` ends
with `0 ≤ x ≤ 100` and `0 ≤ y ≤ 100`; a coordinate is `100` when its draw was
`RAND_MAX`. -/
theorem load_positions_in_closed_range (E : Collab) (w : World) (p : Nat)
    (h1 : Heap) (L : layout_t)
    (hb : E.layout_build_from_papers w.map_env.num_papers w.map_env.papers false 1 0 w.heap
      = (some p, h1))
    (hp : h1 p = some L) (hwf : L.num_nodes ≤ (L.nodes.length : Int))
    (hmax : 0 < E.RAND_MAX) (hr : ∀ k, E.random k ≤ E.RAND_MAX)
    (hnone : ∀ L' k, (E.Mysql_load_paper_positions L').2 k = none) :
    ∃ w' L', Mapmysql_env_layout_pos_load_from_db E w = .ok w' ∧ w'.heap p = some L' ∧
      ∀ i : Nat, (i : Int) < L.num_nodes → ∃ nd, L'.nodes[i]? = some nd ∧
        0 ≤ nd.x ∧ nd.x ≤ 100 ∧ 0 ≤ nd.y ∧ nd.y ≤ 100 ∧
        (E.random (w.drawn + 2 * i) = E.RAND_MAX → nd.x = 100) ∧
        (E.random (w.drawn + 2 * i + 1) = E.RAND_MAX → nd.y = 100) := by
  obtain ⟨nodes1, -, hrun, -, -, hin⟩ := load_total E w p h1 L hb hp hwf
  refine ⟨_, _, hrun, load_result_heap E w p h1 L nodes1 _, ?_⟩
  intro i hi
  obtain ⟨nd, -, hnew⟩ := hin i hi
  refine ⟨{ ident := nd.ident
            x := scaled_random E (E.random (w.drawn + 2 * i))
            y := scaled_random E (E.random (w.drawn + 2 * i + 1)) }, ?_,
    scaled_random_nonneg E _, scaled_random_le E _ hmax (hr _),
    scaled_random_nonneg E _, scaled_random_le E _ hmax (hr _),
    scaled_random_max E _ hmax, scaled_random_max E _ hmax⟩
  have hap : ∀ L', apply_loaded (E.Mysql_load_paper_positions L').2 0 nodes1 = nodes1 :=
    fun L' => apply_loaded_nothing _ (fun k => hnone L' k) nodes1 0
  show (apply_loaded _ 0 nodes1)[i]? = _
  rw [hap]
  exact hnew

theorem load_positions_in_closed_range_witness :
    (db_collab (fun k => k % 5) false (fun _ => none)).layout_build_from_papers
        (start_world 2).map_env.num_papers (start_world 2).map_env.papers false 1 0
        (start_world 2).heap
      = (some 1, Function.update (fun _ => none) 1 (some (db_layout 2))) ∧
    Function.update (fun _ => none : Heap) 1 (some (db_layout 2)) 1 = some (db_layout 2) ∧
    (db_layout 2).num_nodes ≤ ((db_layout 2).nodes.length : Int) ∧
    0 < (db_collab (fun k => k % 5) false (fun _ => none)).RAND_MAX ∧
    (∀ k, (db_collab (fun k => k % 5) false (fun _ => none)).random k
      ≤ (db_collab (fun k => k % 5) false (fun _ => none)).RAND_MAX) ∧
    (∀ L' k, ((db_collab (fun k => k % 5) false
      (fun _ => none)).Mysql_load_paper_positions L').2 k = none) ∧
    ∃ w' L', Mapmysql_env_layout_pos_load_from_db
        (db_collab (fun k => k % 5) false (fun _ => none)) (start_world 2) = .ok w' ∧
      w'.heap 1 = some L' ∧
      ∀ i : Nat, (i : Int) < (db_layout 2).num_nodes → ∃ nd, L'.nodes[i]? = some nd ∧
        0 ≤ nd.x ∧ nd.x ≤ 100 ∧ 0 ≤ nd.y ∧ nd.y ≤ 100 ∧
        ((db_collab (fun k => k % 5) false (fun _ => none)).random
              ((start_world 2).drawn + 2 * i)
            = (db_collab (fun k => k % 5) false (fun _ => none)).RAND_MAX → nd.x = 100) ∧
        ((db_collab (fun k => k % 5) false (fun _ => none)).random
              ((start_world 2).drawn + 2 * i + 1)
            = (db_collab (fun k => k % 5) false (fun _ => none)).RAND_MAX → nd.y = 100) :=
  ⟨db_collab_builds _ _ _ 2, db_layout_at 2, db_layout_wf 2, by decide,
    fun k => by show k % 5 ≤ 2147483647; omega, fun _ _ => rfl,
    load_positions_in_closed_range (db_collab (fun k => k % 5) false (fun _ => none))
      (start_world 2) 1 _ (db_layout 2)
      (db_collab_builds _ _ _ 2) (db_layout_at 2) (db_layout_wf 2) (by decide)
      (fun k => by show k % 5 ≤ 2147483647; omega) (fun _ _ => rfl)⟩

/-! ## The configuration fields -/

/-- C6, as stated, fails: started with `do_close_repulsion = false` and
`step_size = 1`, the load function returns with `do_close_repulsion = true`
and `step_size = 0.1`. -/
theorem load_changes_close_repulsion_and_step_size :
    (start_world 1).map_env.force_params.do_close_repulsion = false ∧
    (start_world 1).map_env.step_size = 1 ∧
    ∃ w', Mapmysql_env_layout_pos_load_from_db
        (db_collab (fun k => k) true (fun _ => none)) (start_world 1) = .ok w' ∧
      w'.map_env.force_params.do_close_repulsion = true ∧
      w'.map_env.step_size = 1 / 10 ∧
      w'.map_env.force_params.do_close_repulsion
        ≠ (start_world 1).map_env.force_params.do_close_repulsion ∧
      w'.map_env.step_size ≠ (start_world 1).map_env.step_size := by
  refine ⟨rfl, rfl, ?_⟩
  obtain ⟨nodes1, -, hrun, -⟩ :=
    load_total (db_collab (fun k => k) true (fun _ => none)) (start_world 1) 1 _
      (db_layout 1) (db_collab_builds _ _ _ 1) (db_layout_at 1) (db_layout_wf 1)
  refine ⟨_, hrun, rfl, rfl, ?_, ?_⟩
  · simp [load_result, start_world]
  · simp only [load_result, start_world]
    norm_num

/-- C6, amended: after `Mapmysql_env_layout_pos_load_from_db` the fields
`use_ref_freq`, `anti_gravity_strength` and `link_strength` have the values
from before the call; `do_close_repulsion` equals its value from before
exactly when that value was already true, and `step_size` exactly when it was
already `0.1`. -/
theorem load_keeps_strengths_and_ref_freq (E : Collab) (w : World) (p : Nat)
    (h1 : Heap) (L : layout_t)
    (hb : E.layout_build_from_papers w.map_env.num_papers w.map_env.papers false 1 0 w.heap
      = (some p, h1))
    (hp : h1 p = some L) (hwf : L.num_nodes ≤ (L.nodes.length : Int)) :
    ∃ w', Mapmysql_env_layout_pos_load_from_db E w = .ok w' ∧
      w'.map_env.force_params.use_ref_freq = w.map_env.force_params.use_ref_freq ∧
      w'.map_env.force_params.anti_gravity_strength
        = w.map_env.force_params.anti_gravity_strength ∧
      w'.map_env.force_params.link_strength = w.map_env.force_params.link_strength ∧
      (w'.map_env.force_params.do_close_repulsion = w.map_env.force_params.do_close_repulsion
        ↔ w.map_env.force_params.do_close_repulsion = true) ∧
      (w'.map_env.step_size = w.map_env.step_size ↔ w.map_env.step_size = 1 / 10) := by
  obtain ⟨nodes1, -, hrun, -⟩ := load_total E w p h1 L hb hp hwf
  refine ⟨_, hrun, rfl, rfl, rfl, ?_, ?_⟩
  · show (true = w.map_env.force_params.do_close_repulsion) ↔ _
    exact eq_comm
  · show ((1 / 10 : ℚ) = w.map_env.step_size) ↔ _
    exact eq_comm

theorem load_keeps_strengths_and_ref_freq_witness :
    (db_collab (fun k => k) true (fun _ => none)).layout_build_from_papers
        (start_world 4).map_env.num_papers (start_world 4).map_env.papers false 1 0
        (start_world 4).heap
      = (some 1, Function.update (fun _ => none) 1 (some (db_layout 4))) ∧
    Function.update (fun _ => none : Heap) 1 (some (db_layout 4)) 1 = some (db_layout 4) ∧
    (db_layout 4).num_nodes ≤ ((db_layout 4).nodes.length : Int) ∧
    ∃ w', Mapmysql_env_layout_pos_load_from_db
        (db_collab (fun k => k) true (fun _ => none)) (start_world 4) = .ok w' ∧
      w'.map_env.force_params.use_ref_freq = (start_world 4).map_env.force_params.use_ref_freq ∧
      w'.map_env.force_params.anti_gravity_strength
        = (start_world 4).map_env.force_params.anti_gravity_strength ∧
      w'.map_env.force_params.link_strength
        = (start_world 4).map_env.force_params.link_strength ∧
      (w'.map_env.force_params.do_close_repulsion
          = (start_world 4).map_env.force_params.do_close_repulsion
        ↔ (start_world 4).map_env.force_params.do_close_repulsion = true) ∧
      (w'.map_env.step_size = (start_world 4).map_env.step_size
        ↔ (start_world 4).map_env.step_size = 1 / 10) :=
  ⟨db_collab_builds _ _ _ 4, db_layout_at 4, db_layout_wf 4,
    load_keeps_strengths_and_ref_freq (db_collab (fun k => k) true (fun _ => none))
      (start_world 4) 1 _ (db_layout 4)
      (db_collab_builds _ _ _ 4) (db_layout_at 4) (db_layout_wf 4)⟩

/-! ## The empty input graph -/

/-- C7, as stated, fails: with `num_papers = 0` and no layout in the map
environment, the load function calls `layout_build_from_papers`, stores the
layout it returned in `map_env->layout`, and calls
`Mysql_load_paper_positions` on it. -/
theorem load_builds_layout_for_empty_graph :
    (start_world 0).map_env.num_papers = 0 ∧ (start_world 0).map_env.layout = none ∧
    (start_world 0).trace = [] ∧
    ∃ w', Mapmysql_env_layout_pos_load_from_db
        (db_collab (fun k => k) false (fun _ => none)) (start_world 0) = .ok w' ∧
      w'.map_env.layout = some 1 ∧
      w'.heap 1 = some { num_nodes := 0, nodes := [], child_layout := none } ∧
      w'.trace = [Call.layout_build_from_papers 0 100 false 1 0, Call.layout_print (some 1),
        Call.Mysql_load_paper_positions 1] := by
  refine ⟨rfl, rfl, rfl, ?_⟩
  obtain ⟨nodes1, -, hrun, hlen, -⟩ :=
    load_total (db_collab (fun k => k) false (fun _ => none)) (start_world 0) 1 _
      (db_layout 0) (db_collab_builds _ _ _ 0) (db_layout_at 0) (db_layout_wf 0)
  have hnil : nodes1 = [] := by
    apply List.eq_nil_of_length_eq_zero
    rw [hlen]
    rfl
  subst hnil
  refine ⟨_, hrun, rfl, ?_, rfl⟩
  rw [load_result_heap]
  rfl

/-- C7, amended: `Mapmysql_env_layout_pos_load_from_db` has no test for an
empty graph.  With `num_papers = 0` it calls
`layout_build_from_papers(0, papers, false, 1, 0)`, stores the returned layout
in `map_env->layout`, prints it and calls `Mysql_load_paper_positions` on it,
in this order, and returns normally. -/
theorem load_runs_through_for_empty_graph (E : Collab) (w : World) (p : Nat)
    (h1 : Heap) (L : layout_t)
    (hzero : w.map_env.num_papers = 0)
    (hb : E.layout_build_from_papers w.map_env.num_papers w.map_env.papers false 1 0 w.heap
      = (some p, h1))
    (hp : h1 p = some L) (hwf : L.num_nodes ≤ (L.nodes.length : Int)) :
    ∃ w', Mapmysql_env_layout_pos_load_from_db E w = .ok w' ∧
      w'.map_env.layout = some p ∧
      (∃ L', w'.heap p = some L') ∧
      w'.trace = w.trace ++
        [Call.layout_build_from_papers 0 w.map_env.papers false 1 0,
         Call.layout_print (some p), Call.Mysql_load_paper_positions p] := by
  obtain ⟨nodes1, -, hrun, -⟩ := load_total E w p h1 L hb hp hwf
  refine ⟨_, hrun, rfl, ⟨_, load_result_heap E w p h1 L nodes1 _⟩, ?_⟩
  show w.trace ++ [Call.layout_build_from_papers w.map_env.num_papers _ false 1 0, _, _] = _
  rw [hzero]

theorem load_runs_through_for_empty_graph_witness :
    (start_world 0).map_env.num_papers = 0 ∧
    (db_collab (fun k => k) true (fun _ => none)).layout_build_from_papers
        (start_world 0).map_env.num_papers (start_world 0).map_env.papers false 1 0
        (start_world 0).heap
      = (some 1, Function.update (fun _ => none) 1 (some (db_layout 0))) ∧
    Function.update (fun _ => none : Heap) 1 (some (db_layout 0)) 1 = some (db_layout 0) ∧
    (db_layout 0).num_nodes ≤ ((db_layout 0).nodes.length : Int) ∧
    ∃ w', Mapmysql_env_layout_pos_load_from_db
        (db_collab (fun k => k) true (fun _ => none)) (start_world 0) = .ok w' ∧
      w'.map_env.layout = some 1 ∧
      (∃ L', w'.heap 1 = some L') ∧
      w'.trace = (start_world 0).trace ++
        [Call.layout_build_from_papers 0 (start_world 0).map_env.papers false 1 0,
         Call.layout_print (some 1), Call.Mysql_load_paper_positions 1] :=
  ⟨rfl, db_collab_builds _ _ _ 0, db_layout_at 0, db_layout_wf 0,
    load_runs_through_for_empty_graph (db_collab (fun k => k) true (fun _ => none))
      (start_world 0) 1 _ (db_layout 0) rfl
      (db_collab_builds _ _ _ 0) (db_layout_at 0) (db_layout_wf 0)⟩

end Paperscape
